import Mathlib

/-!
Verification development for the `plexPingPong` heartbeat/reconnect session of
rxprotoplex-pingpong.

The embedding models `plexPingPong(plex, isInitiator, config)` from
`src/unnamed/part_001` (the full variant of `src/lib/plexPingPong.js`, with
`connectionTimeout`, `retryDelay`, `reconnectAttemptCount` and the plex
destruction step; where the two variants differ the claims cite the
part_001 lines).  The session's mutable state (`isDisconnected`, the attached
streams, the ping timer subscriptions, the heartbeat deadline) is an explicit
record, and every externally-triggered callback of the source (inbound data,
ping-interval tick, stream error/complete, plex close, caller unsubscribe,
retry-exhaustion error) is one event of a step function; all callbacks are
serialized on one execution context, as in the single-threaded rxjs scheduler.

Where a claim hinges on the semantics of an rxjs operator, that operator's
subscription behaviour is transcribed separately and the transcription is
documented at the definition (`subscribeEmptyTimeout` for
`EMPTY.pipe(timeout(n))`, `timeoutFirstError` for `timeout(n)` over the
connect observable, `retryRun` for `retry({count, delay, resetOnSuccess})`).
-/

namespace PingPong

/-- Decoded payload arriving on the channel: the two heartbeat tokens the
source's `filter (data === "ping" || data === "pong")` lets through
(part_001 line 117), or any other payload. -/
inductive Msg where
  | ping
  | pong
  | other (payload : String)
deriving DecidableEq, Repr

/-- Event kind emitted to the subscriber (`subscriber.next({ type, plex })`). -/
inductive Ev where
  | ping
  | pong
deriving DecidableEq, Repr

/-- Terminal causes handed to `performDisconnect` at its call sites:
stream error (part_001 line 135), stream completed unexpectedly (line 139),
stream found destroyed by the ping timer (line 175), plex closed (line 237),
connection-chain error after retry exhaustion (lines 200, 229), the rxjs
TimeoutError of the (inert) heartbeat watchdog (line 150), and caller
unsubscription (line 245). -/
inductive Cause where
  | streamErr
  | streamCompleted
  | streamDestroyed
  | plexClosed
  | connError
  | missedPong
  | unsubscribed
deriving DecidableEq, Repr

/-- Observable side effects of the session, in program order:
writes on a stream (`stream.write`), events and errors delivered to the
subscriber, the heartbeat-reset signal (`heartbeatSubject.next()`),
destruction of a stream or of the plex endpoint, and the failure-handler
invocation (with its caught-and-logged exception). -/
inductive Output where
  | writeStream (sid : Nat) (m : Msg)
  | emitEvent (e : Ev)
  | heartbeatNext
  | destroyStream (sid : Nat)
  | destroyPlex
  | invokeHandler (c : Cause)
  | logHandlerError
  | emitError (c : Cause)
deriving DecidableEq, Repr

/-- Configuration of `plexPingPong` (part_001 lines 43-51).  `hasHandler`
records whether `onPingPongFailure` was supplied, `handlerThrows` whether that
handler raises when invoked; the channel id and `log` flag do not affect the
modelled behaviour. -/
structure Config where
  interval : ℚ
  connectionTimeout : ℚ
  retryDelay : ℚ
  reconnectAttemptCount : Nat
  hasHandler : Bool
  handlerThrows : Bool
  isInitiator : Bool
deriving DecidableEq, Repr

/-- State of one subscription of the rxjs `timeout` operator: how many source
values were seen, whether the downstream subscriber is closed, and the pending
timer deadline, if any. -/
structure TimeoutSub where
  seen : Nat
  downstreamClosed : Bool
  timer : Option ℚ
deriving DecidableEq, Repr

/-- Transcription of subscribing `EMPTY.pipe(timeout(each))`, the inner
observable of the heartbeat watchdog (part_001 lines 146-153).  rxjs 7's
`timeout` with a number config uses `each` semantics; its subscription body is:
(1) subscribe to the source — `EMPTY` completes synchronously, and the
complete is forwarded downstream, closing the subscriber and clearing any
timer; (2) only afterwards does `!seen && startTimer(each)` run, and
`executeSchedule` attaches the scheduled timer to the downstream subscriber —
adding to an already-closed subscription unsubscribes it immediately, so the
timer is cancelled before it can fire.  (rxjs 6's `timeoutWith` schedules the
timer first but the synchronous complete unsubscribes it, with the same net
result.) -/
def subscribeEmptyTimeout (each : ℚ) : TimeoutSub :=
  let s0 : TimeoutSub := { seen := 0, downstreamClosed := false, timer := none }
  let s1 : TimeoutSub := { s0 with downstreamClosed := true, timer := none }
  if s1.seen = 0 then
    (if s1.downstreamClosed then s1 else { s1 with timer := some each })
  else s1

/-- Session state of one running `plexPingPong` observable (part_001
lines 72-77 plus the subscription handles).  `streamDestroyed` has one entry
per stream ever emitted by the connect/listen observable, indexed by emission
order, `true` once that stream is destroyed; `pingTimers` holds the stream ids
that have an active `interval(_interval / 2)` subscription; `teardownRuns`
counts executions of the guarded body of `performDisconnect`;
`heartbeatDeadline` is the pending watchdog deadline of the current
`switchMap` inner subscription; `terminalCause` records the cause of the first
disconnect. -/
structure Session where
  isDisconnected : Bool
  teardownRuns : Nat
  streamDestroyed : List Bool
  pingTimers : List Nat
  plexDestroyed : Bool
  heartbeatDeadline : Option ℚ
  terminalCause : Option Cause
deriving DecidableEq, Repr

/-- Initial session state: nothing attached, not disconnected; the initial
`heartbeatSubject.next()` at part_001 line 242 arms the watchdog through
`subscribeEmptyTimeout`. -/
def Session.init (cfg : Config) : Session :=
  { isDisconnected := false
    teardownRuns := 0
    streamDestroyed := []
    pingTimers := []
    plexDestroyed := false
    heartbeatDeadline := (subscribeEmptyTimeout cfg.interval).timer
    terminalCause := none }

/-- Effect of `disconnect$.next()` on the currently subscribed `switchMap`
inner (part_001 lines 181-193): destroy the current attempt's stream if it is
not already destroyed.  Only the most recently emitted stream has a live inner
subscription (earlier inners were unsubscribed by `switchMap` without running
this tap). -/
def disconnectTapStream (s : Session) : Session × List Output :=
  match s.streamDestroyed.length with
  | 0 => (s, [])
  | k + 1 =>
    if s.streamDestroyed.getD k true then (s, [])
    else ({ s with streamDestroyed := s.streamDestroyed.set k true },
          [Output.destroyStream k])

/-- Destruction of the plex endpoint inside `performDisconnect` (part_001
lines 92-94): `if (!plex.destroyed) destroy(plex)`. -/
def destroyPlexStep (s : Session) : Session × List Output :=
  if s.plexDestroyed then (s, [])
  else ({ s with plexDestroyed := true }, [Output.destroyPlex])

/-- Failure policy applied at the end of the teardown body (part_001
lines 96-107): with a handler configured, invoke it with the cause, catching
and only logging any exception it raises; without one, surface the cause as a
terminal error on the subscriber. -/
def failurePolicyOuts (cfg : Config) (c : Cause) : List Output :=
  if cfg.hasHandler then
    Output.invokeHandler c :: (if cfg.handlerThrows then [Output.logHandlerError] else [])
  else [Output.emitError c]

/-- Unguarded tail of the teardown body, in source order: the `disconnect$`
tap (stream destruction), then the plex destruction, then the failure
policy. -/
def disconnectFinish (cfg : Config) (c : Cause) (s : Session) : Session × List Output :=
  ((destroyPlexStep (disconnectTapStream s).1).1,
   (disconnectTapStream s).2 ++ (destroyPlexStep (disconnectTapStream s).1).2
     ++ failurePolicyOuts cfg c)

/-- The `performDisconnect(error)` function (part_001 lines 78-111): guarded
by `isDisconnected`; on the first call it sets the flag, fires and completes
`disconnect$` (which tears down every `takeUntil(disconnect$)` subscription:
all data subscriptions and every ping timer), completes `heartbeatSubject`,
unsubscribes the ping timer, then destroys the current stream and the plex and
applies the failure policy.  Any later call is a no-op. -/
def performDisconnect (cfg : Config) (c : Cause) (s : Session) : Session × List Output :=
  if s.isDisconnected then (s, [])
  else
    disconnectFinish cfg c
      { s with isDisconnected := true
               teardownRuns := s.teardownRuns + 1
               terminalCause := some c
               heartbeatDeadline := none
               pingTimers := [] }

/-- Check of `stream.destroyed` for the stream with the given id; ids that
were never attached count as destroyed. -/
def streamDead (s : Session) (sid : Nat) : Bool := s.streamDestroyed.getD sid true

/-- Externally triggered callbacks of the session, each serialized on the
session's execution context:
stream emission by the connect/listen observable, inbound decoded data on an
attached stream, a tick of a stream's `interval(_interval / 2)` timer, error
or completion of a stream's data subscription, the plex `close$` notification,
the terminal error of the retried connection chain (after retry exhaustion),
expiry of an armed heartbeat deadline, caller unsubscription, and destruction
of a stream by the environment (for instance the remote peer dying). -/
inductive Event where
  | streamEmitted
  | dataMsg (sid : Nat) (m : Msg)
  | pingTick (sid : Nat)
  | streamError (sid : Nat)
  | streamComplete (sid : Nat)
  | plexClose
  | connFail
  | heartbeatFire
  | unsubscribe
  | envDestroyStream (sid : Nat)
deriving DecidableEq, Repr

/-- One serialized callback dispatch.  Each branch transcribes the
corresponding handler of part_001:
stream emission attaches `handleStream` and, for the initiator, a fresh ping
interval subscription (lines 163-179; the previous `pingSubscription` handle
is overwritten, not unsubscribed); inbound data runs the `tap` body of
`handleStream` (lines 118-128); a ping tick runs the interval callback
(lines 169-178); data-subscription error/complete, `plex.close$`, the
connection chain's terminal error and caller unsubscription all funnel into
`performDisconnect` (lines 132-141, 197-203, 235-238, 244-253); subscriptions
created with `takeUntil(disconnect$)` deliver nothing once disconnected. -/
def step (cfg : Config) (s : Session) : Event → Session × List Output
  | Event.streamEmitted =>
    if s.isDisconnected then (s, [])
    else
      ({ s with streamDestroyed := s.streamDestroyed ++ [false]
                pingTimers :=
                  if cfg.isInitiator then s.pingTimers ++ [s.streamDestroyed.length]
                  else s.pingTimers }, [])
  | Event.dataMsg sid m =>
    if s.isDisconnected then (s, [])
    else if streamDead s sid then (s, [])
    else
      match m with
      | Msg.ping => (s, [Output.writeStream sid Msg.pong, Output.emitEvent Ev.ping])
      | Msg.pong =>
        ({ s with heartbeatDeadline := (subscribeEmptyTimeout cfg.interval).timer },
         [Output.heartbeatNext, Output.emitEvent Ev.pong])
      | Msg.other _ => (s, [])
  | Event.pingTick sid =>
    if s.isDisconnected then (s, [])
    else if sid ∈ s.pingTimers then
      if streamDead s sid then performDisconnect cfg Cause.streamDestroyed s
      else (s, [Output.writeStream sid Msg.ping, Output.emitEvent Ev.ping])
    else (s, [])
  | Event.streamError sid =>
    if s.isDisconnected then (s, [])
    else if sid < s.streamDestroyed.length then performDisconnect cfg Cause.streamErr s
    else (s, [])
  | Event.streamComplete sid =>
    if s.isDisconnected then (s, [])
    else if sid < s.streamDestroyed.length then performDisconnect cfg Cause.streamCompleted s
    else (s, [])
  | Event.plexClose =>
    if s.isDisconnected then (s, []) else performDisconnect cfg Cause.plexClosed s
  | Event.connFail =>
    if s.isDisconnected then (s, []) else performDisconnect cfg Cause.connError s
  | Event.heartbeatFire =>
    match s.heartbeatDeadline with
    | some _ => performDisconnect cfg Cause.missedPong s
    | none => (s, [])
  | Event.unsubscribe => performDisconnect cfg Cause.unsubscribed s
  | Event.envDestroyStream sid =>
    ({ s with streamDestroyed := s.streamDestroyed.set sid true }, [])

/-- Run of a session over a serialized sequence of callbacks, accumulating the
produced outputs in order. -/
def run (cfg : Config) : Session → List Event → Session × List Output
  | s, [] => (s, [])
  | s, e :: evs =>
    let p := step cfg s e
    let q := run cfg p.1 evs
    (q.1, p.2 ++ q.2)

/-- Outputs that touch the subscriber's ping/pong feed or write on a stream. -/
def Output.isWriteOrEmit : Output → Bool
  | Output.writeStream _ _ => true
  | Output.emitEvent _ => true
  | _ => false

/-- Invocations of the configured failure handler. -/
def Output.isInvokeHandler : Output → Bool
  | Output.invokeHandler _ => true
  | _ => false

/-- Terminal errors delivered to the subscriber. -/
def Output.isEmitError : Output → Bool
  | Output.emitError _ => true
  | _ => false

/-- Number of stream emissions in an event sequence. -/
def countStreamEmits (evs : List Event) : Nat :=
  evs.countP (fun e => match e with | Event.streamEmitted => true | _ => false)

/-- Period of the initiator's ping timer: `interval(_interval / 2)` (part_001
line 167). -/
def pingPeriod (cfg : Config) : ℚ := cfg.interval / 2

/-- Firing time of the k-th tick of the rxjs `interval(p)` timer started at
`t0`: `t0 + (k + 1) * p`; the subscription is torn down by
`takeUntil(disconnect$)` at disconnection. -/
def pingTickAt (cfg : Config) (t0 : ℚ) (k : Nat) : ℚ :=
  t0 + (k + 1) * pingPeriod cfg

/-- Transcription of `timeout(each)` (rxjs number config, so `each` semantics)
applied to an observable that has not yet emitted, such as `connect$` or
`listenAndConnection$` (part_001 lines 162 and 209): the timer armed at
subscription raises a TimeoutError at time `each` unless a first emission
arrives no later than `each`.  Returns the error time, or `none` when the
emission preempts the timer. -/
def timeoutFirstError (each : ℚ) (firstEmitAt : Option ℚ) : Option ℚ :=
  match firstEmitAt with
  | none => some each
  | some t => if each < t then some each else none

/-- Outcome of one channel-acquisition attempt: a TimeoutError at the given
time, or an open stream obtained at the given time. -/
inductive AttemptOutcome where
  | timedOut (t : ℚ)
  | opened (t : ℚ)
deriving DecidableEq, Repr

/-- One acquisition attempt viewed through `timeout(connectionTimeout)`,
given the time at which the provider yields a stream (if ever). -/
def attemptOutcome (cfg : Config) (firstEmitAt : Option ℚ) : AttemptOutcome :=
  match timeoutFirstError cfg.connectionTimeout firstEmitAt with
  | some tErr => AttemptOutcome.timedOut tErr
  | none => AttemptOutcome.opened (firstEmitAt.getD 0)

/-- Acquisition attempt of `initiateConnection` (part_001 lines 159-204):
`connect$` piped through `timeout(connectionTimeout)`. -/
def initiateAttempt (cfg : Config) (firstEmitAt : Option ℚ) : AttemptOutcome :=
  attemptOutcome cfg firstEmitAt

/-- Acquisition attempt of `listenConnection` (part_001 lines 206-233):
`listenAndConnection$` piped through the same `timeout(connectionTimeout)`. -/
def listenAttempt (cfg : Config) (firstEmitAt : Option ℚ) : AttemptOutcome :=
  attemptOutcome cfg firstEmitAt

/-- Behaviour of one subscription of the retried connection chain, as seen by
the `retry` operator: it either errors without having emitted, or emits
`extraEmits + 1` values and then errors. -/
inductive SubOutcome where
  | err
  | emitThenErr (extraEmits : Nat)
deriving DecidableEq, Repr

/-- Result of driving `retry` over a sequence of subscription outcomes: how
many resubscriptions it performed, the delay preceding each of them, and
whether the final error was forwarded downstream (terminating the chain). -/
structure RetryResult where
  resubscribes : Nat
  delays : List ℚ
  terminal : Bool
deriving DecidableEq, Repr

/-- Transcription of rxjs `retry({ count, delay, resetOnSuccess: true })`
(part_001 lines 195 and 224) driven over the outcomes of successive
subscriptions of the source chain, starting from `soFar` retries already
consumed.  Per the rxjs implementation: each source emission resets the retry
counter to zero (`resetOnSuccess`); on an error, if the counter is below
`count` the source is resubscribed after `delay` and the counter incremented,
otherwise the error is forwarded downstream and no further subscription ever
occurs (the remaining outcomes are unreachable). -/
def retryRun (count : Nat) (delay : ℚ) : Nat → List SubOutcome → RetryResult
  | _, [] => { resubscribes := 0, delays := [], terminal := false }
  | soFar, o :: rest =>
    let soFarNow := match o with
      | SubOutcome.err => soFar
      | SubOutcome.emitThenErr _ => 0
    if soFarNow < count then
      let r := retryRun count delay (soFarNow + 1) rest
      { resubscribes := r.resubscribes + 1, delays := delay :: r.delays,
        terminal := r.terminal }
    else { resubscribes := 0, delays := [], terminal := true }

/-- What one subscription of the retried connection chain presents to the
`retry` operator when the provider successfully opens a stream and the chain
errors afterwards (for instance `connect$` erroring after its emission, or
the re-armed `timeout(connectionTimeout)` firing between chain emissions):
the chain's own emissions are those of the `switchMap` inner
`disconnect$.pipe(tap(...), take(1))` (part_001 lines 181-193), which emits
only when `disconnect$` fires at disconnection, so a successful open
contributes no chain emission and such an attempt presents to `retry` as an
emission-free error. -/
def openedThenFailedOutcome : SubOutcome := SubOutcome.err

/-- Session invariant maintained by every serialized callback: the teardown
body has run exactly once on a disconnected session and never otherwise; the
heartbeat watchdog deadline is never armed (consequence of
`subscribeEmptyTimeout`); no session ever records the missed-heartbeat cause;
and ping timers exist only for the initiator, only while not disconnected,
and only once a stream has been emitted. -/
def Inv (cfg : Config) (s : Session) : Prop :=
  s.teardownRuns = (if s.isDisconnected then 1 else 0) ∧
  s.heartbeatDeadline = none ∧
  s.terminalCause ≠ some Cause.missedPong ∧
  (s.pingTimers ≠ [] →
    cfg.isInitiator = true ∧ s.isDisconnected = false ∧ s.streamDestroyed ≠ [])

/-- Concrete initiator configuration used for concrete evaluations: the
`interval = 500` setting of the repository's own tests, all other options at
their part_001 defaults, no failure handler. -/
def cfgCx : Config :=
  { interval := 500, connectionTimeout := 1000, retryDelay := 1000,
    reconnectAttemptCount := 3, hasHandler := false, handlerThrows := false,
    isInitiator := true }

/-- Concrete configuration with a failure handler that raises when invoked. -/
def cfgHandler : Config :=
  { cfgCx with hasHandler := true, handlerThrows := true }

/-- Concrete session state of `cfgCx` right after its first stream emission. -/
def sessionLive : Session := (run cfgCx (Session.init cfgCx) [Event.streamEmitted]).1

/-- Concrete session state of `cfgCx` after its first stream was emitted and
then destroyed by the environment, before any further callback ran. -/
def sessionDead : Session :=
  (run cfgCx (Session.init cfgCx) [Event.streamEmitted, Event.envDestroyStream 0]).1

lemma subscribeEmptyTimeout_timer (q : ℚ) : (subscribeEmptyTimeout q).timer = none := rfl

lemma tap_fst_fields (s : Session) :
    (disconnectTapStream s).1.isDisconnected = s.isDisconnected ∧
    (disconnectTapStream s).1.teardownRuns = s.teardownRuns ∧
    (disconnectTapStream s).1.pingTimers = s.pingTimers ∧
    (disconnectTapStream s).1.plexDestroyed = s.plexDestroyed ∧
    (disconnectTapStream s).1.heartbeatDeadline = s.heartbeatDeadline ∧
    (disconnectTapStream s).1.terminalCause = s.terminalCause ∧
    (disconnectTapStream s).1.streamDestroyed.length = s.streamDestroyed.length := by
  unfold disconnectTapStream
  split
  · simp
  · split <;> simp

lemma tap_snd_clean (s : Session) :
    ((disconnectTapStream s).2.filter Output.isWriteOrEmit) = [] ∧
    ((disconnectTapStream s).2.countP Output.isInvokeHandler) = 0 ∧
    ((disconnectTapStream s).2.filter Output.isEmitError) = [] ∧
    ((disconnectTapStream s).2.filter Output.isInvokeHandler) = [] := by
  unfold disconnectTapStream
  split
  · simp
  · split <;>
      simp [Output.isWriteOrEmit, Output.isInvokeHandler, Output.isEmitError]

lemma plexStep_fst (s : Session) :
    (destroyPlexStep s).1 = { s with plexDestroyed := true } := by
  unfold destroyPlexStep
  split
  · next h => cases s with | mk d t sd pt px hb tc => simp_all
  · rfl

lemma plexStep_snd_clean (s : Session) :
    ((destroyPlexStep s).2.filter Output.isWriteOrEmit) = [] ∧
    ((destroyPlexStep s).2.countP Output.isInvokeHandler) = 0 ∧
    ((destroyPlexStep s).2.filter Output.isEmitError) = [] ∧
    ((destroyPlexStep s).2.filter Output.isInvokeHandler) = [] := by
  unfold destroyPlexStep
  split <;>
    simp [Output.isWriteOrEmit, Output.isInvokeHandler, Output.isEmitError]

lemma policy_no_write (cfg : Config) (c : Cause) :
    ((failurePolicyOuts cfg c).filter Output.isWriteOrEmit) = [] := by
  unfold failurePolicyOuts
  split <;> try split
  all_goals simp [Output.isWriteOrEmit]

lemma policy_invoke_count (cfg : Config) (c : Cause) :
    (failurePolicyOuts cfg c).countP Output.isInvokeHandler
      = (if cfg.hasHandler then 1 else 0) := by
  unfold failurePolicyOuts
  split <;> try split
  all_goals simp [Output.isInvokeHandler]

lemma policy_handler (cfg : Config) (c : Cause) (hh : cfg.hasHandler = true) :
    (failurePolicyOuts cfg c).count (Output.invokeHandler c) = 1 ∧
    ((failurePolicyOuts cfg c).filter Output.isEmitError) = [] ∧
    (cfg.handlerThrows = true → Output.logHandlerError ∈ failurePolicyOuts cfg c) := by
  unfold failurePolicyOuts
  rw [if_pos hh]
  by_cases ht : cfg.handlerThrows = true <;>
    simp [ht, Output.isEmitError, List.count_cons]

lemma policy_nohandler (cfg : Config) (c : Cause) (hh : cfg.hasHandler = false) :
    (failurePolicyOuts cfg c).count (Output.emitError c) = 1 ∧
    ((failurePolicyOuts cfg c).filter Output.isInvokeHandler) = [] := by
  unfold failurePolicyOuts
  simp [hh, Output.isInvokeHandler, List.count_cons]

lemma pd_noop (cfg : Config) (c : Cause) (s : Session) (h : s.isDisconnected = true) :
    performDisconnect cfg c s = (s, []) := by
  simp [performDisconnect, h]

lemma disconnectFinish_fst (cfg : Config) (c : Cause) (s : Session) :
    (disconnectFinish cfg c s).1.isDisconnected = s.isDisconnected ∧
    (disconnectFinish cfg c s).1.teardownRuns = s.teardownRuns ∧
    (disconnectFinish cfg c s).1.pingTimers = s.pingTimers ∧
    (disconnectFinish cfg c s).1.heartbeatDeadline = s.heartbeatDeadline ∧
    (disconnectFinish cfg c s).1.terminalCause = s.terminalCause ∧
    (disconnectFinish cfg c s).1.plexDestroyed = true ∧
    (disconnectFinish cfg c s).1.streamDestroyed.length = s.streamDestroyed.length := by
  obtain ⟨h1, h2, h3, h4, h5, h6, h7⟩ := tap_fst_fields s
  unfold disconnectFinish
  rw [plexStep_fst]
  simp_all

lemma pd_fst (cfg : Config) (c : Cause) (s : Session) (h : s.isDisconnected = false) :
    (performDisconnect cfg c s).1.isDisconnected = true ∧
    (performDisconnect cfg c s).1.teardownRuns = s.teardownRuns + 1 ∧
    (performDisconnect cfg c s).1.pingTimers = [] ∧
    (performDisconnect cfg c s).1.heartbeatDeadline = none ∧
    (performDisconnect cfg c s).1.terminalCause = some c ∧
    (performDisconnect cfg c s).1.plexDestroyed = true ∧
    (performDisconnect cfg c s).1.streamDestroyed.length = s.streamDestroyed.length := by
  have hf := disconnectFinish_fst cfg c
    { s with isDisconnected := true
             teardownRuns := s.teardownRuns + 1
             terminalCause := some c
             heartbeatDeadline := none
             pingTimers := [] }
  unfold performDisconnect
  simp only [h] at hf ⊢
  simpa using hf

lemma pd_no_write (cfg : Config) (c : Cause) (s : Session) :
    ((performDisconnect cfg c s).2.filter Output.isWriteOrEmit) = [] := by
  unfold performDisconnect
  split
  · simp
  · unfold disconnectFinish
    simp only [List.filter_append, List.append_eq_nil]
    exact ⟨⟨(tap_snd_clean _).1, (plexStep_snd_clean _).1⟩, policy_no_write cfg c⟩

lemma pd_invoke_count (cfg : Config) (c : Cause) (s : Session) (h : s.isDisconnected = false) :
    (performDisconnect cfg c s).2.countP Output.isInvokeHandler
      = (if cfg.hasHandler then 1 else 0) := by
  unfold performDisconnect
  simp only [h, Bool.false_eq_true, if_false]
  unfold disconnectFinish
  simp only [List.countP_append]
  rw [(tap_snd_clean _).2.1, (plexStep_snd_clean _).2.1, policy_invoke_count]
  simp

lemma tap_count (s : Session) (c : Cause) :
    (disconnectTapStream s).2.count (Output.invokeHandler c) = 0 ∧
    (disconnectTapStream s).2.count (Output.emitError c) = 0 := by
  unfold disconnectTapStream
  split
  · simp
  · split <;> simp

lemma plexStep_count (s : Session) (c : Cause) :
    (destroyPlexStep s).2.count (Output.invokeHandler c) = 0 ∧
    (destroyPlexStep s).2.count (Output.emitError c) = 0 := by
  unfold destroyPlexStep
  split <;> simp

lemma tap_no_plex (s : Session) : Output.destroyPlex ∉ (disconnectTapStream s).2 := by
  unfold disconnectTapStream
  split
  · simp
  · split <;> simp

lemma policy_no_plex (cfg : Config) (c : Cause) :
    Output.destroyPlex ∉ failurePolicyOuts cfg c := by
  unfold failurePolicyOuts
  split <;> try split
  all_goals simp

lemma plexStep_mem (s : Session) :
    (s.plexDestroyed = false → (destroyPlexStep s).2 = [Output.destroyPlex]) ∧
    (s.plexDestroyed = true → (destroyPlexStep s).2 = []) := by
  unfold destroyPlexStep
  constructor <;> intro hp <;> simp [hp]

lemma pd_handler (cfg : Config) (c : Cause) (s : Session)
    (h : s.isDisconnected = false) (hh : cfg.hasHandler = true) :
    (performDisconnect cfg c s).2.count (Output.invokeHandler c) = 1 ∧
    ((performDisconnect cfg c s).2.filter Output.isEmitError) = [] ∧
    (cfg.handlerThrows = true → Output.logHandlerError ∈ (performDisconnect cfg c s).2) := by
  unfold performDisconnect
  simp only [h, Bool.false_eq_true, if_false]
  unfold disconnectFinish
  refine ⟨?_, ?_, ?_⟩
  · rw [List.count_append, List.count_append,
      (tap_count _ c).1, (plexStep_count _ c).1, (policy_handler cfg c hh).1]
  · rw [List.filter_append, List.filter_append,
      (tap_snd_clean _).2.2.1, (plexStep_snd_clean _).2.2.1,
      (policy_handler cfg c hh).2.1]
    simp
  · intro ht
    have hm := (policy_handler cfg c hh).2.2 ht
    simp [List.mem_append, hm]

lemma pd_nohandler (cfg : Config) (c : Cause) (s : Session)
    (h : s.isDisconnected = false) (hh : cfg.hasHandler = false) :
    (performDisconnect cfg c s).2.count (Output.emitError c) = 1 ∧
    ((performDisconnect cfg c s).2.filter Output.isInvokeHandler) = [] := by
  unfold performDisconnect
  simp only [h, Bool.false_eq_true, if_false]
  unfold disconnectFinish
  constructor
  · rw [List.count_append, List.count_append,
      (tap_count _ c).2, (plexStep_count _ c).2, (policy_nohandler cfg c hh).1]
  · rw [List.filter_append, List.filter_append,
      (tap_snd_clean _).2.2.2, (plexStep_snd_clean _).2.2.2,
      (policy_nohandler cfg c hh).2]
    simp

lemma finish_plex (cfg : Config) (c : Cause) (s : Session) :
    (s.plexDestroyed = false → Output.destroyPlex ∈ (disconnectFinish cfg c s).2) ∧
    (s.plexDestroyed = true → Output.destroyPlex ∉ (disconnectFinish cfg c s).2) := by
  unfold disconnectFinish
  have htap := (tap_fst_fields s).2.2.2.1
  constructor
  · intro hp
    rw [(plexStep_mem _).1 (htap.trans hp)]
    simp
  · intro hp
    rw [(plexStep_mem _).2 (htap.trans hp)]
    simp [List.mem_append, tap_no_plex s, policy_no_plex cfg c]

lemma pd_plex (cfg : Config) (c : Cause) (s : Session) (h : s.isDisconnected = false) :
    (s.plexDestroyed = false → Output.destroyPlex ∈ (performDisconnect cfg c s).2) ∧
    (s.plexDestroyed = true → Output.destroyPlex ∉ (performDisconnect cfg c s).2) := by
  unfold performDisconnect
  simp only [h, Bool.false_eq_true, if_false]
  have hf := finish_plex cfg c
    { s with isDisconnected := true
             teardownRuns := s.teardownRuns + 1
             terminalCause := some c
             heartbeatDeadline := none
             pingTimers := [] }
  simpa using hf

lemma step_disconnected (cfg : Config) (s : Session) (e : Event)
    (h : s.isDisconnected = true) :
    (step cfg s e).2 = [] ∧ (step cfg s e).1.isDisconnected = true ∧
    (step cfg s e).1.teardownRuns = s.teardownRuns ∧
    (step cfg s e).1.pingTimers = s.pingTimers ∧
    (step cfg s e).1.heartbeatDeadline = s.heartbeatDeadline ∧
    (step cfg s e).1.terminalCause = s.terminalCause ∧
    (step cfg s e).1.streamDestroyed.length = s.streamDestroyed.length := by
  cases e
  all_goals try simp [step, h, pd_noop]
  all_goals cases hhb : s.heartbeatDeadline <;> simp [step, hhb, h, pd_noop]

lemma run_disconnected (cfg : Config) (evs : List Event) (s : Session)
    (h : s.isDisconnected = true) :
    (run cfg s evs).2 = [] ∧ (run cfg s evs).1.isDisconnected = true := by
  induction evs generalizing s with
  | nil => exact ⟨rfl, h⟩
  | cons e evs ih =>
    obtain ⟨h1, h2, -⟩ := step_disconnected cfg s e h
    have hr := ih (step cfg s e).1 h2
    simp [run, h1, hr.1, hr.2]

lemma inv_pd (cfg : Config) (c : Cause) (s : Session) (hc : c ≠ Cause.missedPong)
    (hinv : Inv cfg s) : Inv cfg (performDisconnect cfg c s).1 := by
  obtain ⟨hctr, hhb, htc, htm⟩ := hinv
  cases hd : s.isDisconnected
  case false =>
    obtain ⟨f1, f2, f3, f4, f5, f6, f7⟩ := pd_fst cfg c s hd
    refine ⟨?_, f4, ?_, ?_⟩
    · rw [f2, f1, hctr, hd]
      simp
    · rw [f5]
      simpa using hc
    · intro hne
      rw [f3] at hne
      simp at hne
  case true =>
    rw [pd_noop cfg c s hd]
    exact ⟨hctr, hhb, htc, htm⟩

lemma inv_step (cfg : Config) (s : Session) (e : Event) (hinv : Inv cfg s) :
    Inv cfg (step cfg s e).1 := by
  obtain ⟨hctr, hhb, htc, htm⟩ := hinv
  cases hd : s.isDisconnected
  case true =>
    obtain ⟨-, h2, h3, h4, h5, h6, -⟩ := step_disconnected cfg s e hd
    refine ⟨?_, ?_, ?_, ?_⟩
    · rw [h3, h2, hctr, hd]
    · rw [h5, hhb]
    · rw [h6]
      exact htc
    · intro hne
      rw [h4] at hne
      exact absurd (htm hne).2.1 (by simp [hd])
  case false =>
    have hInv : Inv cfg s := ⟨hctr, hhb, htc, htm⟩
    cases e with
    | streamEmitted =>
      have he : (step cfg s Event.streamEmitted).1 =
          { s with streamDestroyed := s.streamDestroyed ++ [false]
                   pingTimers :=
                     if cfg.isInitiator then s.pingTimers ++ [s.streamDestroyed.length]
                     else s.pingTimers } := by
        simp [step, hd]
      rw [he]
      refine ⟨hctr, hhb, htc, ?_⟩
      intro hne
      cases hi : cfg.isInitiator
      case false =>
        rw [hi] at hne
        simp only [Bool.false_eq_true, if_false] at hne
        exact absurd (htm hne).1 (by simp [hi])
      case true =>
        exact ⟨rfl, hd, by simp⟩
    | dataMsg sid m =>
      by_cases hg : streamDead s sid = true
      · have he : (step cfg s (Event.dataMsg sid m)).1 = s := by
          simp [step, hd, hg]
        rw [he]
        exact hInv
      · cases m
        · have he : (step cfg s (Event.dataMsg sid Msg.ping)).1 = s := by
            simp [step, hd, hg]
          rw [he]
          exact hInv
        · have he : (step cfg s (Event.dataMsg sid Msg.pong)).1 =
              { s with heartbeatDeadline := (subscribeEmptyTimeout cfg.interval).timer } := by
            simp [step, hd, hg]
          rw [he]
          exact ⟨hctr, subscribeEmptyTimeout_timer cfg.interval, htc, htm⟩
        · next payload =>
          have he : (step cfg s (Event.dataMsg sid (Msg.other payload))).1 = s := by
            simp [step, hd, hg]
          rw [he]
          exact hInv
    | pingTick sid =>
      by_cases hm : sid ∈ s.pingTimers
      · by_cases hg : streamDead s sid = true
        · have he : step cfg s (Event.pingTick sid)
              = performDisconnect cfg Cause.streamDestroyed s := by
            simp [step, hd, hm, hg]
          rw [he]
          exact inv_pd cfg _ s (by simp) hInv
        · have he : (step cfg s (Event.pingTick sid)).1 = s := by
            simp [step, hd, hm, hg]
          rw [he]
          exact hInv
      · have he : (step cfg s (Event.pingTick sid)).1 = s := by
          simp [step, hd, hm]
        rw [he]
        exact hInv
    | streamError sid =>
      by_cases hl : sid < s.streamDestroyed.length
      · have he : step cfg s (Event.streamError sid)
            = performDisconnect cfg Cause.streamErr s := by
          simp [step, hd, hl]
        rw [he]
        exact inv_pd cfg _ s (by simp) hInv
      · have he : (step cfg s (Event.streamError sid)).1 = s := by
          simp [step, hd, hl]
        rw [he]
        exact hInv
    | streamComplete sid =>
      by_cases hl : sid < s.streamDestroyed.length
      · have he : step cfg s (Event.streamComplete sid)
            = performDisconnect cfg Cause.streamCompleted s := by
          simp [step, hd, hl]
        rw [he]
        exact inv_pd cfg _ s (by simp) hInv
      · have he : (step cfg s (Event.streamComplete sid)).1 = s := by
          simp [step, hd, hl]
        rw [he]
        exact hInv
    | plexClose =>
      have he : step cfg s Event.plexClose = performDisconnect cfg Cause.plexClosed s := by
        simp [step, hd]
      rw [he]
      exact inv_pd cfg _ s (by simp) hInv
    | connFail =>
      have he : step cfg s Event.connFail = performDisconnect cfg Cause.connError s := by
        simp [step, hd]
      rw [he]
      exact inv_pd cfg _ s (by simp) hInv
    | heartbeatFire =>
      have he : (step cfg s Event.heartbeatFire).1 = s := by
        simp [step, hhb]
      rw [he]
      exact hInv
    | unsubscribe =>
      have he : step cfg s Event.unsubscribe = performDisconnect cfg Cause.unsubscribed s := by
        simp [step]
      rw [he]
      exact inv_pd cfg _ s (by simp) hInv
    | envDestroyStream sid =>
      have he : (step cfg s (Event.envDestroyStream sid)).1 =
          { s with streamDestroyed := s.streamDestroyed.set sid true } := by
        simp [step]
      rw [he]
      refine ⟨hctr, hhb, htc, ?_⟩
      intro hne
      have h3 := htm hne
      refine ⟨h3.1, h3.2.1, ?_⟩
      have hp : 0 < s.streamDestroyed.length := List.length_pos.mpr h3.2.2
      exact List.length_pos.mp (by simpa [List.length_set] using hp)

lemma inv_init (cfg : Config) : Inv cfg (Session.init cfg) := by
  refine ⟨rfl, rfl, by simp [Session.init], ?_⟩
  intro hne
  simp [Session.init] at hne

lemma inv_run (cfg : Config) (evs : List Event) (s : Session) (hinv : Inv cfg s) :
    Inv cfg (run cfg s evs).1 := by
  induction evs generalizing s with
  | nil => exact hinv
  | cons e evs ih =>
    have h1 := inv_step cfg s e hinv
    simpa [run] using ih (step cfg s e).1 h1

lemma step_invoke (cfg : Config) (s : Session) (e : Event) (hd : s.isDisconnected = false) :
    ((step cfg s e).1.isDisconnected = false ∧
      (step cfg s e).2.countP Output.isInvokeHandler = 0) ∨
    ((step cfg s e).1.isDisconnected = true ∧
      (step cfg s e).2.countP Output.isInvokeHandler ≤ 1) := by
  have hpd : ∀ c, ((performDisconnect cfg c s).1.isDisconnected = true ∧
      (performDisconnect cfg c s).2.countP Output.isInvokeHandler ≤ 1) := by
    intro c
    refine ⟨(pd_fst cfg c s hd).1, ?_⟩
    rw [pd_invoke_count cfg c s hd]
    split <;> simp
  cases e with
  | streamEmitted =>
    left
    simp [step, hd]
  | dataMsg sid m =>
    by_cases hg : streamDead s sid = true
    · left
      simp [step, hd, hg]
    · left
      cases m <;> simp [step, hd, hg, Output.isInvokeHandler]
  | pingTick sid =>
    by_cases hm : sid ∈ s.pingTimers
    · by_cases hg : streamDead s sid = true
      · right
        have he : step cfg s (Event.pingTick sid)
            = performDisconnect cfg Cause.streamDestroyed s := by
          simp [step, hd, hm, hg]
        rw [he]
        exact hpd _
      · left
        simp [step, hd, hm, hg, Output.isInvokeHandler]
    · left
      simp [step, hd, hm]
  | streamError sid =>
    by_cases hl : sid < s.streamDestroyed.length
    · right
      have he : step cfg s (Event.streamError sid)
          = performDisconnect cfg Cause.streamErr s := by
        simp [step, hd, hl]
      rw [he]
      exact hpd _
    · left
      simp [step, hd, hl]
  | streamComplete sid =>
    by_cases hl : sid < s.streamDestroyed.length
    · right
      have he : step cfg s (Event.streamComplete sid)
          = performDisconnect cfg Cause.streamCompleted s := by
        simp [step, hd, hl]
      rw [he]
      exact hpd _
    · left
      simp [step, hd, hl]
  | plexClose =>
    right
    have he : step cfg s Event.plexClose = performDisconnect cfg Cause.plexClosed s := by
      simp [step, hd]
    rw [he]
    exact hpd _
  | connFail =>
    right
    have he : step cfg s Event.connFail = performDisconnect cfg Cause.connError s := by
      simp [step, hd]
    rw [he]
    exact hpd _
  | heartbeatFire =>
    cases hhb : s.heartbeatDeadline with
    | none =>
      left
      simp [step, hhb, hd]
    | some d =>
      right
      have he : step cfg s Event.heartbeatFire
          = performDisconnect cfg Cause.missedPong s := by
        simp [step, hhb]
      rw [he]
      exact hpd _
  | unsubscribe =>
    right
    have he : step cfg s Event.unsubscribe = performDisconnect cfg Cause.unsubscribed s := by
      simp [step]
    rw [he]
    exact hpd _
  | envDestroyStream sid =>
    left
    simp [step, hd]

lemma run_invoke (cfg : Config) (evs : List Event) (s : Session)
    (hd : s.isDisconnected = false) :
    (run cfg s evs).2.countP Output.isInvokeHandler ≤ 1 := by
  induction evs generalizing s with
  | nil => simp [run]
  | cons e evs ih =>
    rcases step_invoke cfg s e hd with ⟨h1, h2⟩ | ⟨h1, h2⟩
    · have hr := ih (step cfg s e).1 h1
      simpa [run, List.countP_append, h2] using hr
    · have hr := (run_disconnected cfg evs (step cfg s e).1 h1).1
      simp [run, List.countP_append, hr]
      exact h2

lemma pd_len (cfg : Config) (c : Cause) (s : Session) :
    (performDisconnect cfg c s).1.streamDestroyed.length = s.streamDestroyed.length := by
  cases hd : s.isDisconnected
  case true => rw [pd_noop cfg c s hd]
  case false => exact (pd_fst cfg c s hd).2.2.2.2.2.2

lemma step_len (cfg : Config) (s : Session) (e : Event) :
    (step cfg s e).1.streamDestroyed.length
      ≤ s.streamDestroyed.length + countStreamEmits [e] := by
  cases hd : s.isDisconnected
  case true =>
    have h7 := (step_disconnected cfg s e hd).2.2.2.2.2.2
    omega
  case false =>
    cases e with
    | streamEmitted => simp [step, hd, countStreamEmits]
    | dataMsg sid m =>
      by_cases hg : streamDead s sid = true
      · simp [step, hd, hg, countStreamEmits]
      · cases m <;> simp [step, hd, hg, countStreamEmits]
    | pingTick sid =>
      by_cases hm : sid ∈ s.pingTimers
      · by_cases hg : streamDead s sid = true
        · have he : step cfg s (Event.pingTick sid)
              = performDisconnect cfg Cause.streamDestroyed s := by
            simp [step, hd, hm, hg]
          rw [he]
          have hp := pd_len cfg Cause.streamDestroyed s
          simp [countStreamEmits]
          omega
        · simp [step, hd, hm, hg, countStreamEmits]
      · simp [step, hd, hm, countStreamEmits]
    | streamError sid =>
      by_cases hl : sid < s.streamDestroyed.length
      · have he : step cfg s (Event.streamError sid)
            = performDisconnect cfg Cause.streamErr s := by
          simp [step, hd, hl]
        rw [he]
        have hp := pd_len cfg Cause.streamErr s
        simp [countStreamEmits]
        omega
      · simp [step, hd, hl, countStreamEmits]
    | streamComplete sid =>
      by_cases hl : sid < s.streamDestroyed.length
      · have he : step cfg s (Event.streamComplete sid)
            = performDisconnect cfg Cause.streamCompleted s := by
          simp [step, hd, hl]
        rw [he]
        have hp := pd_len cfg Cause.streamCompleted s
        simp [countStreamEmits]
        omega
      · simp [step, hd, hl, countStreamEmits]
    | plexClose =>
      have he : step cfg s Event.plexClose = performDisconnect cfg Cause.plexClosed s := by
        simp [step, hd]
      rw [he]
      have hp := pd_len cfg Cause.plexClosed s
      simp [countStreamEmits]
      omega
    | connFail =>
      have he : step cfg s Event.connFail = performDisconnect cfg Cause.connError s := by
        simp [step, hd]
      rw [he]
      have hp := pd_len cfg Cause.connError s
      simp [countStreamEmits]
      omega
    | heartbeatFire =>
      cases hhb : s.heartbeatDeadline with
      | none => simp [step, hhb, countStreamEmits]
      | some d =>
        have he : step cfg s Event.heartbeatFire
            = performDisconnect cfg Cause.missedPong s := by
          simp [step, hhb]
        rw [he]
        have hp := pd_len cfg Cause.missedPong s
        simp [countStreamEmits]
        omega
    | unsubscribe =>
      have he : step cfg s Event.unsubscribe = performDisconnect cfg Cause.unsubscribed s := by
        simp [step]
      rw [he]
      have hp := pd_len cfg Cause.unsubscribed s
      simp [countStreamEmits]
      omega
    | envDestroyStream sid => simp [step, countStreamEmits]

lemma run_len (cfg : Config) (evs : List Event) (s : Session) :
    (run cfg s evs).1.streamDestroyed.length
      ≤ s.streamDestroyed.length + countStreamEmits evs := by
  induction evs generalizing s with
  | nil => simp [run, countStreamEmits]
  | cons e evs ih =>
    have h1 := step_len cfg s e
    have h2 := ih (step cfg s e).1
    have h3 : countStreamEmits (e :: evs) = countStreamEmits evs + countStreamEmits [e] := by
      simp [countStreamEmits, List.countP_cons]
    simp only [run]
    omega

lemma retryRun_cons_err (count : Nat) (d : ℚ) (soFar : Nat) (rest : List SubOutcome) :
    retryRun count d soFar (SubOutcome.err :: rest)
      = if soFar < count then
          { resubscribes := (retryRun count d (soFar + 1) rest).resubscribes + 1,
            delays := d :: (retryRun count d (soFar + 1) rest).delays,
            terminal := (retryRun count d (soFar + 1) rest).terminal }
        else { resubscribes := 0, delays := [], terminal := true } := rfl

lemma retryRun_exhaust (count : Nat) (d : ℚ) (soFar k : Nat) (more : List SubOutcome)
    (h : soFar + k = count) :
    retryRun count d soFar (List.replicate (k + 1) SubOutcome.err ++ more)
      = { resubscribes := k, delays := List.replicate k d, terminal := true } := by
  induction k generalizing soFar with
  | zero =>
    have hlt : ¬ soFar < count := by omega
    rw [List.replicate_succ, List.cons_append, retryRun_cons_err, if_neg hlt]
    simp
  | succ k ih =>
    have hlt : soFar < count := by omega
    have hr := ih (soFar + 1) (by omega)
    rw [List.replicate_succ, List.cons_append, retryRun_cons_err, if_pos hlt, hr]
    simp [List.replicate_succ]

lemma retryRun_delays (count : Nat) (d : ℚ) (l : List SubOutcome) (soFar : Nat) :
    (retryRun count d soFar l).delays
      = List.replicate (retryRun count d soFar l).resubscribes d := by
  induction l generalizing soFar with
  | nil => simp [retryRun]
  | cons o rest ih =>
    cases o <;> simp only [retryRun] <;> split <;> simp [ih, List.replicate_succ]

lemma retryRun_reset (count : Nat) (d : ℚ) (soFar extra : Nat) (rest : List SubOutcome) :
    retryRun count d soFar (SubOutcome.emitThenErr extra :: rest)
      = retryRun count d 0 (SubOutcome.emitThenErr extra :: rest) := rfl

lemma retryRun_err_cons (count : Nat) (d : ℚ) (soFar : Nat) (rest : List SubOutcome)
    (hcnt : soFar < count) :
    (retryRun count d soFar (SubOutcome.err :: rest)).terminal
        = (retryRun count d (soFar + 1) rest).terminal ∧
    1 ≤ (retryRun count d soFar (SubOutcome.err :: rest)).resubscribes := by
  simp [retryRun, hcnt]

/-- C1: for every configuration and every serialized sequence of triggering
events — missed heartbeat, stream error, endpoint close, caller cancellation,
in any order and multiplicity — the teardown body of `performDisconnect`
(stopping timers, completing the disconnect and heartbeat subjects, destroying
the channel, applying the failure policy) executes at most once per session;
moreover any call of `performDisconnect` on an already-disconnected session
returns it unchanged with no outputs. -/
theorem c1_teardown_at_most_once (cfg : Config) (evs : List Event) (c : Cause)
    (s : Session) :
    (run cfg (Session.init cfg) evs).1.teardownRuns ≤ 1 ∧
    performDisconnect cfg c { s with isDisconnected := true }
      = ({ s with isDisconnected := true }, []) := by
  constructor
  · have h1 := (inv_run cfg evs (Session.init cfg) (inv_init cfg)).1
    split at h1 <;> omega
  · exact pd_noop cfg c _ rfl

/-- C2 (claim refuted by the code): the heartbeat watchdog can never fire.
The inner observable `EMPTY.pipe(timeout(interval), catchError(...))` of
`heartbeat$` completes synchronously, so the `timeout` timer is attached to an
already-closed subscriber and is cancelled before it can be armed
(`subscribeEmptyTimeout` never yields a pending deadline).  Consequently, over
every event sequence the session's heartbeat deadline is always `none` and the
session never reaches a terminal state with the missed-heartbeat cause —
contradicting the claim that a silent peer is detected within `interval`. -/
theorem c2_missed_heartbeat_never_fires (q : ℚ) (cfg : Config) (evs : List Event) :
    (subscribeEmptyTimeout q).timer = none ∧
    (run cfg (Session.init cfg) evs).1.heartbeatDeadline = none ∧
    (run cfg (Session.init cfg) evs).1.terminalCause ≠ some Cause.missedPong := by
  have hinv := inv_run cfg evs (Session.init cfg) (inv_init cfg)
  exact ⟨subscribeEmptyTimeout_timer q, hinv.2.1, hinv.2.2.1⟩

/-- C3: once `performDisconnect` has been invoked, no further ping or pong
event is emitted to the subscriber and no further write occurs on any of the
session's streams: the teardown call itself produces no write or event
outputs, and a disconnected session produces no outputs at all on any
subsequent callback sequence. -/
theorem c3_silence_after_disconnect (cfg : Config) (c : Cause) (s : Session)
    (evs : List Event) :
    ((performDisconnect cfg c s).2.filter Output.isWriteOrEmit) = [] ∧
    (run cfg { s with isDisconnected := true } evs).2 = [] := by
  exact ⟨pd_no_write cfg c s, (run_disconnected cfg evs _ rfl).1⟩

/-- C4: on an open channel, an inbound heartbeat-request writes exactly one
acknowledgment on the channel and then emits a ping event; an inbound
acknowledgment signals the heartbeat reset (`heartbeatSubject.next`, which
re-subscribes the watchdog inner) and then emits a pong event; every other
payload is ignored without error. -/
theorem c4_message_handler (cfg : Config) (s : Session) (sid : Nat) (payload : String)
    (hd : s.isDisconnected = false) (hs : streamDead s sid = false) :
    step cfg s (Event.dataMsg sid Msg.ping)
      = (s, [Output.writeStream sid Msg.pong, Output.emitEvent Ev.ping]) ∧
    step cfg s (Event.dataMsg sid Msg.pong)
      = ({ s with heartbeatDeadline := (subscribeEmptyTimeout cfg.interval).timer },
         [Output.heartbeatNext, Output.emitEvent Ev.pong]) ∧
    step cfg s (Event.dataMsg sid (Msg.other payload)) = (s, []) ∧
    (step cfg s (Event.dataMsg sid Msg.ping)).2.count (Output.writeStream sid Msg.pong)
      = 1 := by
  have hg : ¬ streamDead s sid = true := by simp [hs]
  refine ⟨by simp [step, hd, hg], by simp [step, hd, hg], by simp [step, hd, hg], ?_⟩
  simp [step, hd, hg, List.count_cons]

/-- Witness for C4 at the concrete live session of `cfgCx`. -/
theorem c4_message_handler_witness :
    sessionLive.isDisconnected = false ∧
    streamDead sessionLive 0 = false ∧
    (step cfgCx sessionLive (Event.dataMsg 0 Msg.ping)).2.count
        (Output.writeStream 0 Msg.pong) = 1 ∧
    step cfgCx sessionLive (Event.dataMsg 0 (Msg.other "hello")) = (sessionLive, []) :=
  ⟨by decide, by decide,
   (c4_message_handler cfgCx sessionLive 0 "hello" (by decide) (by decide)).2.2.2,
   (c4_message_handler cfgCx sessionLive 0 "hello" (by decide) (by decide)).2.2.1⟩

/-- C5: consecutive ticks of the initiator's ping timer are spaced exactly
`interval / 2` apart; on a tick with the stream not destroyed the session
writes exactly one heartbeat-request and emits a ping event; on a tick that
finds the stream destroyed it writes nothing and immediately disconnects with
the stream-destroyed cause; and once disconnected, a tick produces no output
at all. -/
theorem c5_ping_scheduler (cfg : Config) (t0 : ℚ) (k : Nat) (s s2 : Session)
    (sid sid2 : Nat) (hd : s.isDisconnected = false) (hm : sid ∈ s.pingTimers) :
    pingTickAt cfg t0 (k + 1) - pingTickAt cfg t0 k = cfg.interval / 2 ∧
    (streamDead s sid = false →
      step cfg s (Event.pingTick sid)
        = (s, [Output.writeStream sid Msg.ping, Output.emitEvent Ev.ping])) ∧
    (streamDead s sid = true →
      (step cfg s (Event.pingTick sid)).1.terminalCause = some Cause.streamDestroyed ∧
      (step cfg s (Event.pingTick sid)).1.isDisconnected = true ∧
      ((step cfg s (Event.pingTick sid)).2.filter Output.isWriteOrEmit) = []) ∧
    (step cfg { s2 with isDisconnected := true } (Event.pingTick sid2)).2 = [] := by
  refine ⟨?_, ?_, ?_, (step_disconnected cfg _ _ rfl).1⟩
  · simp [pingTickAt, pingPeriod]
    ring
  · intro hlive
    have hg : ¬ streamDead s sid = true := by simp [hlive]
    simp [step, hd, hm, hg]
  · intro hds
    have he : step cfg s (Event.pingTick sid)
        = performDisconnect cfg Cause.streamDestroyed s := by
      simp [step, hd, hm, hds]
    rw [he]
    exact ⟨(pd_fst cfg _ s hd).2.2.2.2.1, (pd_fst cfg _ s hd).1,
      pd_no_write cfg _ s⟩

/-- Witness for C5 at the concrete live and externally-destroyed sessions of
`cfgCx`. -/
theorem c5_ping_scheduler_witness :
    pingTickAt cfgCx 0 1 - pingTickAt cfgCx 0 0 = cfgCx.interval / 2 ∧
    step cfgCx sessionLive (Event.pingTick 0)
      = (sessionLive, [Output.writeStream 0 Msg.ping, Output.emitEvent Ev.ping]) ∧
    (step cfgCx sessionDead (Event.pingTick 0)).1.terminalCause
      = some Cause.streamDestroyed :=
  ⟨(c5_ping_scheduler cfgCx 0 0 sessionLive sessionLive 0 0 (by decide) (by decide)).1,
   (c5_ping_scheduler cfgCx 0 0 sessionLive sessionLive 0 0 (by decide)
      (by decide)).2.1 (by decide),
   ((c5_ping_scheduler cfgCx 0 0 sessionDead sessionDead 0 0 (by decide)
      (by decide)).2.2.1 (by decide)).1⟩

/-- C6 counterexample: the claimed reset of the attempt counter after a
successful open is false on the code.  An attempt that successfully opens a
stream and then fails presents to `retry` as an emission-free error
(`openedThenFailedOutcome`), because the chain emits only at disconnection;
with `reconnectAttemptCount = 3` and three retries already consumed, such an
attempt is terminal, whereas the claimed reset-to-zero would retry it. -/
theorem c6_counterexample :
    retryRun 3 1000 3 [openedThenFailedOutcome]
      ≠ retryRun 3 1000 0 [openedThenFailedOutcome] := by
  decide

/-- C6 (amended): driving `retry({ count: reconnectAttemptCount, delay:
retryDelay, resetOnSuccess: true })` over acquisition failures performs
exactly `reconnectAttemptCount` delayed resubscriptions on consecutive
failures and then forwards the next failure downstream as terminal, never
resubscribing again (trailing outcomes are ignored); every resubscription is
preceded by the fixed `retryDelay`; the consumed-retry counter resets to zero
exactly on an emission of the retried chain (rxjs `resetOnSuccess`) — which
for this chain occurs only at disconnection, a successful open alone does not
reset it; and the forwarded terminal error reaches `performDisconnect`, which
records the channel-acquisition-failure cause and disconnects the session. -/
theorem c6_reconnect_policy (cfg : Config) (soFar extra : Nat)
    (rest more : List SubOutcome) (s : Session) (hd : s.isDisconnected = false) :
    retryRun cfg.reconnectAttemptCount cfg.retryDelay 0
        (List.replicate (cfg.reconnectAttemptCount + 1) SubOutcome.err ++ more)
      = { resubscribes := cfg.reconnectAttemptCount,
          delays := List.replicate cfg.reconnectAttemptCount cfg.retryDelay,
          terminal := true } ∧
    retryRun cfg.reconnectAttemptCount cfg.retryDelay soFar
        (SubOutcome.emitThenErr extra :: rest)
      = retryRun cfg.reconnectAttemptCount cfg.retryDelay 0
          (SubOutcome.emitThenErr extra :: rest) ∧
    (retryRun cfg.reconnectAttemptCount cfg.retryDelay soFar rest).delays
      = List.replicate
          (retryRun cfg.reconnectAttemptCount cfg.retryDelay soFar rest).resubscribes
          cfg.retryDelay ∧
    (step cfg s Event.connFail).1.terminalCause = some Cause.connError ∧
    (step cfg s Event.connFail).1.isDisconnected = true := by
  have he : step cfg s Event.connFail = performDisconnect cfg Cause.connError s := by
    simp [step, hd]
  refine ⟨retryRun_exhaust _ _ 0 _ more (by omega), retryRun_reset _ _ _ _ _,
    retryRun_delays _ _ _ _, ?_, ?_⟩
  · rw [he]
    exact (pd_fst cfg Cause.connError s hd).2.2.2.2.1
  · rw [he]
    exact (pd_fst cfg Cause.connError s hd).1

/-- Witness for C6 at the test configuration (three retries) and the concrete
live session. -/
theorem c6_reconnect_policy_witness :
    retryRun cfgCx.reconnectAttemptCount cfgCx.retryDelay 0
        (List.replicate (cfgCx.reconnectAttemptCount + 1) SubOutcome.err ++ [])
      = { resubscribes := cfgCx.reconnectAttemptCount,
          delays := List.replicate cfgCx.reconnectAttemptCount cfgCx.retryDelay,
          terminal := true } ∧
    retryRun cfgCx.reconnectAttemptCount cfgCx.retryDelay 2
        (SubOutcome.emitThenErr 0 :: [])
      = retryRun cfgCx.reconnectAttemptCount cfgCx.retryDelay 0
          (SubOutcome.emitThenErr 0 :: []) ∧
    (step cfgCx sessionLive Event.connFail).1.terminalCause = some Cause.connError :=
  ⟨(c6_reconnect_policy cfgCx 2 0 [] [] sessionLive (by decide)).1,
   (c6_reconnect_policy cfgCx 2 0 [] [] sessionLive (by decide)).2.1,
   (c6_reconnect_policy cfgCx 2 0 [] [] sessionLive (by decide)).2.2.2.1⟩

/-- C7: for either role, if the channel provider yields no stream within
`connectionTimeout` of the attempt's subscription, the `timeout` operator
fails the attempt at exactly `connectionTimeout` (it never waits
indefinitely), and that failure is consumed by the retry policy as an
ordinary failed attempt — it triggers a delayed resubscription, not by itself
a terminal error, while retries remain. -/
theorem c7_attempt_timeout (cfg : Config) (femit : Option ℚ) (soFar : Nat)
    (rest : List SubOutcome)
    (h : femit = none ∨ ∃ t, femit = some t ∧ cfg.connectionTimeout < t)
    (hcnt : soFar < cfg.reconnectAttemptCount) :
    initiateAttempt cfg femit = AttemptOutcome.timedOut cfg.connectionTimeout ∧
    listenAttempt cfg femit = AttemptOutcome.timedOut cfg.connectionTimeout ∧
    (retryRun cfg.reconnectAttemptCount cfg.retryDelay soFar
        (SubOutcome.err :: rest)).terminal
      = (retryRun cfg.reconnectAttemptCount cfg.retryDelay (soFar + 1) rest).terminal ∧
    1 ≤ (retryRun cfg.reconnectAttemptCount cfg.retryDelay soFar
          (SubOutcome.err :: rest)).resubscribes := by
  have ha : attemptOutcome cfg femit = AttemptOutcome.timedOut cfg.connectionTimeout := by
    rcases h with h | ⟨t, ht, hlt⟩
    · simp [attemptOutcome, timeoutFirstError, h]
    · simp [attemptOutcome, timeoutFirstError, ht, hlt]
  have hr := retryRun_err_cons cfg.reconnectAttemptCount cfg.retryDelay soFar rest hcnt
  exact ⟨ha, ha, hr.1, hr.2⟩

/-- Witness for C7 at the test configuration: a provider that never yields. -/
theorem c7_attempt_timeout_witness :
    initiateAttempt cfgCx none = AttemptOutcome.timedOut cfgCx.connectionTimeout ∧
    listenAttempt cfgCx none = AttemptOutcome.timedOut cfgCx.connectionTimeout ∧
    1 ≤ (retryRun cfgCx.reconnectAttemptCount cfgCx.retryDelay 0
          (SubOutcome.err :: [])).resubscribes :=
  ⟨(c7_attempt_timeout cfgCx none 0 [] (Or.inl rfl) (by decide)).1,
   (c7_attempt_timeout cfgCx none 0 [] (Or.inl rfl) (by decide)).2.1,
   (c7_attempt_timeout cfgCx none 0 [] (Or.inl rfl) (by decide)).2.2.2⟩

/-- C8: on the first disconnection, with a failure handler configured the
handler is invoked exactly once with the cause, a raising handler is caught
and only logged, and no terminal error is emitted to the subscriber; without a
handler the same cause is emitted exactly once as the terminal error and the
handler is never invoked; and over any whole session run the handler is
invoked at most once. -/
theorem c8_failure_policy (cfg : Config) (c : Cause) (s : Session) (evs : List Event)
    (hd : s.isDisconnected = false) :
    (cfg.hasHandler = true →
      (performDisconnect cfg c s).2.count (Output.invokeHandler c) = 1 ∧
      ((performDisconnect cfg c s).2.filter Output.isEmitError) = [] ∧
      (cfg.handlerThrows = true →
        Output.logHandlerError ∈ (performDisconnect cfg c s).2)) ∧
    (cfg.hasHandler = false →
      (performDisconnect cfg c s).2.count (Output.emitError c) = 1 ∧
      ((performDisconnect cfg c s).2.filter Output.isInvokeHandler) = []) ∧
    (run cfg (Session.init cfg) evs).2.countP Output.isInvokeHandler ≤ 1 :=
  ⟨fun hh => pd_handler cfg c s hd hh, fun hh => pd_nohandler cfg c s hd hh,
   run_invoke cfg evs (Session.init cfg) rfl⟩

/-- Witness for C8 at the handler-throwing and handler-free configurations. -/
theorem c8_failure_policy_witness :
    (performDisconnect cfgHandler Cause.plexClosed (Session.init cfgHandler)).2.count
        (Output.invokeHandler Cause.plexClosed) = 1 ∧
    ((performDisconnect cfgHandler Cause.plexClosed (Session.init cfgHandler)).2.filter
        Output.isEmitError) = [] ∧
    Output.logHandlerError
      ∈ (performDisconnect cfgHandler Cause.plexClosed (Session.init cfgHandler)).2 ∧
    (performDisconnect cfgCx Cause.plexClosed (Session.init cfgCx)).2.count
        (Output.emitError Cause.plexClosed) = 1 :=
  ⟨((c8_failure_policy cfgHandler Cause.plexClosed (Session.init cfgHandler) []
      (by decide)).1 (by decide)).1,
   ((c8_failure_policy cfgHandler Cause.plexClosed (Session.init cfgHandler) []
      (by decide)).1 (by decide)).2.1,
   ((c8_failure_policy cfgHandler Cause.plexClosed (Session.init cfgHandler) []
      (by decide)).1 (by decide)).2.2 (by decide),
   ((c8_failure_policy cfgCx Cause.plexClosed (Session.init cfgCx) []
      (by decide)).2.1 (by decide)).1⟩

/-- C9 counterexample: the invariant as claimed is false on the code.  If the
acquisition observable emits a second stream, the first is neither destroyed
nor detached, so two channels are open at once; and after the environment
destroys the only stream of an initiator session, the ping timer is still
active although no channel is open (it survives until its next tick triggers
disconnection). -/
theorem c9_counterexample :
    (¬ ∀ evs : List Event,
        (run cfgCx (Session.init cfgCx) evs).1.streamDestroyed.countP (fun b => !b)
          ≤ 1) ∧
    (¬ ∀ evs : List Event,
        (run cfgCx (Session.init cfgCx) evs).1.pingTimers ≠ [] →
          (run cfgCx (Session.init cfgCx) evs).1.streamDestroyed.contains false
            = true) := by
  constructor
  · intro h
    have hc := h [Event.streamEmitted, Event.streamEmitted]
    revert hc
    decide
  · intro h
    have hc := h [Event.streamEmitted, Event.envDestroyStream 0]
    revert hc
    decide

/-- C9 (amended): if the channel provider emits at most one stream during the
session, at most one channel is ever attached (hence at most one open); and an
active ping timer implies the session is an initiator, is not disconnected,
and has had a channel emitted — the timer may merely outlive the destruction
of that channel until its next tick. -/
theorem c9_amended_invariants (cfg : Config) (evs : List Event)
    (h1 : countStreamEmits evs ≤ 1) :
    (run cfg (Session.init cfg) evs).1.streamDestroyed.length ≤ 1 ∧
    ((run cfg (Session.init cfg) evs).1.pingTimers ≠ [] →
      cfg.isInitiator = true ∧
      (run cfg (Session.init cfg) evs).1.isDisconnected = false ∧
      (run cfg (Session.init cfg) evs).1.streamDestroyed ≠ []) := by
  constructor
  · have hl := run_len cfg evs (Session.init cfg)
    have hz : (Session.init cfg).streamDestroyed.length = 0 := rfl
    omega
  · exact (inv_run cfg evs (Session.init cfg) (inv_init cfg)).2.2.2

/-- Witness for the amended C9 on a one-emission trace. -/
theorem c9_amended_invariants_witness :
    (run cfgCx (Session.init cfgCx) [Event.streamEmitted]).1.streamDestroyed.length
      ≤ 1 ∧
    ((run cfgCx (Session.init cfgCx) [Event.streamEmitted]).1.pingTimers ≠ [] →
      cfgCx.isInitiator = true ∧
      (run cfgCx (Session.init cfgCx) [Event.streamEmitted]).1.isDisconnected = false ∧
      (run cfgCx (Session.init cfgCx) [Event.streamEmitted]).1.streamDestroyed ≠ []) :=
  ⟨(c9_amended_invariants cfgCx [Event.streamEmitted] (by decide)).1,
   (c9_amended_invariants cfgCx [Event.streamEmitted] (by decide)).2⟩

/-- C10: the first invocation of `performDisconnect` destroys the whole
multiplex endpoint if it is not already destroyed — for every cause, including
caller unsubscription — and emits no endpoint destruction when the endpoint
was already destroyed. -/
theorem c10_endpoint_destroyed (cfg : Config) (c : Cause) (s : Session)
    (hd : s.isDisconnected = false) :
    (s.plexDestroyed = false →
      Output.destroyPlex ∈ (performDisconnect cfg c s).2 ∧
      (performDisconnect cfg c s).1.plexDestroyed = true ∧
      Output.destroyPlex ∈ (step cfg s Event.unsubscribe).2) ∧
    (s.plexDestroyed = true → Output.destroyPlex ∉ (performDisconnect cfg c s).2) := by
  have hp := pd_plex cfg c s hd
  refine ⟨fun h0 => ⟨hp.1 h0, (pd_fst cfg c s hd).2.2.2.2.2.1, ?_⟩, hp.2⟩
  · have he : step cfg s Event.unsubscribe
        = performDisconnect cfg Cause.unsubscribed s := rfl
    rw [he]
    exact (pd_plex cfg Cause.unsubscribed s hd).1 h0

/-- Witness for C10 at the initial session of `cfgCx`, cause: missed
stream. -/
theorem c10_endpoint_destroyed_witness :
    Output.destroyPlex
      ∈ (performDisconnect cfgCx Cause.streamErr (Session.init cfgCx)).2 ∧
    (performDisconnect cfgCx Cause.streamErr (Session.init cfgCx)).1.plexDestroyed
      = true ∧
    Output.destroyPlex ∈ (step cfgCx (Session.init cfgCx) Event.unsubscribe).2 :=
  (c10_endpoint_destroyed cfgCx Cause.streamErr (Session.init cfgCx)
    (by decide)).1 (by decide)

end PingPong
